import Mathlib

/-!
Verification development for the "Code Nexus" teaching repository.

Each Python source file of the repository is shallowly embedded as Lean
definitions in its own namespace:

* `Ex0`    — src/ex0/stream_processor.py   (Processor Foundation)
* `Ex01DS` — src/ex01/data_stream.py       (Stream Foundation Demo A)
* `Ex01SP` — src/ex01/stream_processor.py  (Stream Processor Demo A)
* `Ex1DS`  — src/ex1/data_stream.py        (Stream Foundation Demo B)
* `Ex1SP`  — src/ex1/stream_processor.py   (Stream Processor Demo B)
* `Me`     — src/ex2/me.py                 (Pipeline Demo, annotated)
* `Rev1`   — src/ex2/nexus_pipeline.py     (Pipeline Demo Revision 1)

Python exceptions are modelled with `Except PyErr`; Python `float` values
are modelled as exact rationals (the claims under study never depend on
binary floating-point rounding); machine-level details such as object
identity are irrelevant to the claims and are not modelled.
-/

/-- The Python exception kinds raised by the embedded code. -/
inductive PyErr where
  | valueError (msg : String)
  | typeError (msg : String)
  | runtimeError (msg : String)
  | zeroDivisionError
  | indexError
  | attributeError (msg : String)
deriving DecidableEq, Repr

deriving instance DecidableEq for Except

/-- Python `str(e)` for the exceptions above, as Python renders them in f-strings. -/
def PyErr.str : PyErr → String
  | .valueError m => m
  | .typeError m => m
  | .runtimeError m => m
  | .zeroDivisionError => "division by zero"
  | .indexError => "list index out of range"
  | .attributeError m => m

/-- Whether an exception is a `ValueError`. -/
def PyErr.isVE : PyErr → Bool
  | .valueError _ => true
  | _ => false

/-- Whether an exception is a `TypeError`. -/
def PyErr.isTE : PyErr → Bool
  | .typeError _ => true
  | _ => false

/-- Whether `sub` occurs inside `l` (used for Python `sub in s`). -/
def subListIn (sub : List Char) : List Char → Bool
  | [] => sub.isEmpty
  | c :: rest => sub.isPrefixOf (c :: rest) || subListIn sub rest

/-- Python `sub in s` (substring containment). -/
def substrIn (sub s : String) : Bool :=
  subListIn sub.data s.data

/-- Python `s.startswith(p)`. -/
def startswith (s p : String) : Bool :=
  p.data.isPrefixOf s.data

/-- Splitting engine for Python `s.split(sep)`: scans left to right,
cutting at each non-overlapping occurrence of `sep`.  The fuel starts at
`l.length + 1`, enough for the whole scan. -/
def splitFuel (sep : List Char) : Nat → List Char → List Char → List (List Char)
  | 0, l, acc => [acc.reverse ++ l]
  | fuel + 1, l, acc =>
    match l with
    | [] => [acc.reverse]
    | c :: rest =>
      if sep ≠ [] && sep.isPrefixOf (c :: rest) then
        acc.reverse :: splitFuel sep fuel (List.drop sep.length (c :: rest)) []
      else
        splitFuel sep fuel rest (c :: acc)

/-- Python `s.split(sep)` for a nonempty separator: pieces between
non-overlapping occurrences of `sep`, scanned left to right. -/
def pySplit (s sep : String) : List String :=
  (splitFuel sep.data (s.data.length + 1) s.data []).map String.mk

/-- Python `s.split()` (no argument): split on whitespace runs, dropping
empty pieces.  The embedded strings only ever contain ordinary spaces. -/
def pySplitWs (s : String) : List String :=
  (pySplit s " ").filter (fun p => p ≠ "")

/-- Decimal digit test used by the numeric parsers. -/
def isDigitChar (c : Char) : Bool :=
  48 ≤ c.toNat && c.toNat ≤ 57

/-- Value of a digit character. -/
def digitVal (c : Char) : Nat :=
  c.toNat - 48

/-- Fold a digit list into a natural number. -/
def digitsToNat (l : List Char) : Nat :=
  l.foldl (fun acc c => 10 * acc + digitVal c) 0

/-- Strip leading and trailing spaces (Python `int`/`float` ignore
surrounding whitespace; the embedded inputs only ever carry spaces). -/
def stripSpaces (s : String) : String :=
  let f := s.data.dropWhile (fun c => c.toNat = 32)
  String.mk ((f.reverse.dropWhile (fun c => c.toNat = 32)).reverse)

/-- Python `int(s)` on a string: optional sign then decimal digits.
(Python additionally accepts underscores between digits and other numeral
forms; the embedded programs only feed plain decimal strings, and every
theorem over parses is conditioned on this parser succeeding, which
implies the Python parse succeeds with the same value.)

`pySignSplit` factors the optional leading sign off a numeral. -/
def pySignSplit (c : Char) (rest : List Char) : Bool × List Char :=
  if c.toNat = 45 then (true, rest)
  else if c.toNat = 43 then (false, rest)
  else (false, c :: rest)

/-- Python `int(s)` on a string (see `pySignSplit` for scope notes). -/
def pyIntOfString (s : String) : Except PyErr Int :=
  match (stripSpaces s).data with
  | [] => .error (.valueError ("invalid literal for int() with base 10: " ++ s))
  | c :: rest =>
    if (pySignSplit c rest).2 ≠ [] && (pySignSplit c rest).2.all isDigitChar then
      .ok (if (pySignSplit c rest).1 then -(digitsToNat (pySignSplit c rest).2 : Int)
        else (digitsToNat (pySignSplit c rest).2 : Int))
    else
      .error (.valueError ("invalid literal for int() with base 10: " ++ s))

/-- Python `float(s)` on a string: optional sign, digits, optional
fractional part.  Exact rational result (see the header comment). -/
def pyFloatOfString (s : String) : Except PyErr ℚ :=
  let t := (stripSpaces s).data
  let (neg, ds) : Bool × List Char :=
    match t with
    | c :: rest =>
      if c.toNat = 45 then (true, rest)
      else if c.toNat = 43 then (false, rest)
      else (false, t)
    | [] => (false, [])
  let intPart := ds.takeWhile isDigitChar
  let rest := ds.dropWhile isDigitChar
  let ok : Option ℚ :=
    match rest with
    | [] => if intPart ≠ [] then some ((digitsToNat intPart : ℚ)) else none
    | dot :: frac =>
      if dot.toNat = 46 && frac.all isDigitChar && (intPart ≠ [] || frac ≠ []) then
        some ((digitsToNat intPart : ℚ) +
          (digitsToNat frac : ℚ) / ((10 : ℚ) ^ frac.length))
      else none
  match ok with
  | some q => .ok (if neg then -q else q)
  | none => .error (.valueError ("could not convert string to float: " ++ s))

/-- Fractional decimal digits of `rem/den`, with fuel bounding the length. -/
def fracDigits (fuel rem den : Nat) : String :=
  match fuel with
  | 0 => ""
  | fuel' + 1 =>
    if rem = 0 then ""
    else
      let d := 10 * rem / den
      let rem' := 10 * rem % den
      toString d ++ fracDigits fuel' rem' den

/-- Rendering of an exact rational as Python renders the corresponding
float (`"3.0"`, `"24.25"`, …).  Faithful for terminating decimals, which
covers every value the verified claims inspect; binary floating-point
shortest-roundtrip rounding is not modelled. -/
def ratRepr (q : ℚ) : String :=
  let sign := if q < 0 then "-" else ""
  let a := q.num.natAbs
  let den := q.den
  let ip := a / den
  let rem := a % den
  sign ++ toString ip ++ "." ++ (if rem = 0 then "0" else fracDigits 30 rem den)

/-- Python `str(s/n)` for an int `s` and a positive int `n` (true
division produces a float; rendered as its terminating decimal — see
`ratRepr`). -/
def divRepr (s : Int) (n : Nat) : String :=
  let sign := if s < 0 then "-" else ""
  let a := s.natAbs
  let ip := a / n
  let rem := a % n
  sign ++ toString ip ++ "." ++ (if rem = 0 then "0" else fracDigits 30 rem n)

/-- A single-quote character as a string (used when rendering Python
`repr` forms). -/
def pyQuote : String := String.mk [Char.ofNat 39]

/-- Python `sum` over a list of rationals. -/
def qsum (l : List ℚ) : ℚ :=
  l.foldl (fun a b => a + b) 0

/-- Python `sum` over a list of ints. -/
def isum (l : List Int) : Int :=
  l.foldl (fun a b => a + b) 0

namespace Ex0

/-!  src/ex0/stream_processor.py — Processor Foundation.

The payload universe observed by this demo: Python ints, strings, `None`,
and (possibly nested) lists. -/

/-- A Python value fed to the ex0 processors. -/
inductive PyVal where
  | int (n : Int)
  | str (s : String)
  | none
  | list (xs : List PyVal)

/-- Python `int(x)`: identity on ints, string parse on strings
(`ValueError` on bad literals), `TypeError` on `None` and lists. -/
def pyIntConv : PyVal → Except PyErr Int
  | .int n => .ok n
  | .str s => pyIntOfString s
  | .none => .error (.typeError "int() argument must not be NoneType")
  | .list _ => .error (.typeError "int() argument must not be list")

/-- Python `iter(x)` as used by `for i in data`: lists yield their
elements, strings yield their one-character substrings, ints and `None`
raise `TypeError`. -/
def pyIter : PyVal → Except PyErr (List PyVal)
  | .list xs => .ok xs
  | .str s => .ok (s.data.map (fun c => .str (String.mk [c])))
  | .int _ => .error (.typeError "int object is not iterable")
  | .none => .error (.typeError "NoneType object is not iterable")

/-- The loop body of `NumericProcessor.validate`: run `int(i)` over the
elements; the surrounding `try` catches only `ValueError`. -/
def validateGo : List PyVal → Except PyErr Bool
  | [] => .ok true
  | x :: xs =>
    match pyIntConv x with
    | .ok _ => validateGo xs
    | .error (.valueError _) => .ok false
    | .error e => .error e

/-- Embeds `NumericProcessor.validate`:
```
try:
    for i in data:
        int(i)
    return True
except ValueError:
    return False
```
A `TypeError` raised inside the `try` (from `iter(data)` or from a
non-convertible element) is not caught and propagates. -/
def validate (data : PyVal) : Except PyErr Bool :=
  match pyIter data with
  | .error e => .error e
  | .ok xs => validateGo xs

/-- Python `len(data)`. -/
def pyLen : PyVal → Except PyErr Nat
  | .list xs => .ok xs.length
  | .str s => .ok s.length
  | .int _ => .error (.typeError "object of type int has no len()")
  | .none => .error (.typeError "object of type NoneType has no len()")

/-- Python `sum(data)` over the ex0 payloads: starts from the int `0`,
so any non-int element raises `TypeError`. -/
def pySum (xs : List PyVal) : Except PyErr Int :=
  xs.foldl
    (fun acc x =>
      match acc, x with
      | .ok n, .int m => .ok (n + m)
      | .ok _, _ => .error (.typeError "unsupported operand type for +")
      | .error e, _ => .error e)
    (.ok 0)

/-- Embeds `NumericProcessor.process`: on valid data renders
`f" {len(data)} {sum(data)} {sum(data)/len(data)}"` (true division —
`ZeroDivisionError` on an empty payload); on invalid data prints a
diagnostic (console output not modelled here) and returns the fixed
failure sentence.  Errors raised inside are not caught. -/
def process (data : PyVal) : Except PyErr String :=
  match validate data with
  | .error e => .error e
  | .ok true =>
    match pyLen data with
    | .error e => .error e
    | .ok n =>
      match pyIter data with
      | .error e => .error e
      | .ok xs =>
        match pySum xs with
        | .error e => .error e
        | .ok s =>
          if n = 0 then .error .zeroDivisionError
          else .ok (" " ++ toString n ++ " " ++ toString s ++ " " ++
            divRepr s n)
  | .ok false => .ok "Numeric data not verified because of Incorrect data type"

/-- Embeds `NumericProcessor.format_output`: re-splits the encoded result and
renders the summary; missing fields raise `IndexError`. -/
def format_output (result : String) : Except PyErr String :=
  let res := pySplitWs result
  match res with
  | a :: b :: c :: _ =>
    .ok ("Processed " ++ a ++ " numeric values, sum=" ++ b ++ ", avg=" ++ c)
  | _ => .error .indexError

/-- Whether an `int(x)` conversion succeeded. -/
def isOkInt : Except PyErr Int → Bool
  | .ok _ => true
  | _ => false

/-- Whether an `int(x)` conversion failed with a `ValueError`. -/
def isVEresult : Except PyErr Int → Bool
  | .error e => e.isVE
  | _ => false

/-- The five severity prefixes accepted by `LogProcessor.validate`. -/
def valide : List String := ["ERROR", "WARNING", "ALERT", "INFO", "FATAL"]

/-- Embeds `LogProcessor.validate`: textual payloads starting with one of the
five severity prefixes. -/
def validateLog : PyVal → Bool
  | .str s => valide.any (fun p => startswith s p)
  | _ => false

/-- Embeds `LogProcessor.process` on a textual payload: fixed alert string for
an `"ERROR"` prefix, fixed info string for an `"INFO"` prefix, and an
implicit `None` (absent result) otherwise. -/
def processLog (s : String) : Option String :=
  if startswith s "ERROR" then some "[ALERT] ERROR level detected: Connection timeout"
  else if startswith s "INFO" then some "[INFO] INFO level detected: System ready"
  else Option.none

end Ex0

namespace Ex01DS

/-!  src/ex01/data_stream.py — Stream Foundation Demo A.

Only `SensorStream` carries behaviour relevant to the claims; its parse
failures are swallowed into the error counter (`except` prints the error
and returns `None`).  Console output is not modelled. -/

/-- The mutable state of a `SensorStream` object (base-class fields
`ID`/`err` included). -/
structure SensorState where
  ID : String
  err : Nat
  type_data : String
  temp_readings : List ℚ
  humidity_readings : List ℚ
  pressure_readings : List ℚ
  avg : ℚ
  total_processed : Nat
deriving DecidableEq

/-- Embeds `SensorStream.__init__`. -/
def mkSensor (id : String) : SensorState :=
  { ID := id, err := 0, type_data := "Environmental Data",
    temp_readings := [], humidity_readings := [], pressure_readings := [],
    avg := 0, total_processed := 0 }

/-- Embeds `if "temp:" in data_str: temp = float(data_str.split("temp:")[1].split(",")[0]); ...append(temp)`.
On parse failure the state so far is kept and the error reported. -/
def tempStep (st : SensorState) (s : String) : SensorState × Option PyErr :=
  if substrIn "temp:" s then
    match pyFloatOfString ((pySplit ((pySplit s "temp:").getD 1 "") ",").getD 0 "") with
    | .ok q => ({st with temp_readings := st.temp_readings ++ [q]}, Option.none)
    | .error e => (st, some e)
  else (st, Option.none)

/-- The `humidity:` branch of the item loop. -/
def humidityStep (st : SensorState) (s : String) : SensorState × Option PyErr :=
  if substrIn "humidity:" s then
    match pyFloatOfString ((pySplit ((pySplit s "humidity:").getD 1 "") ",").getD 0 "") with
    | .ok q => ({st with humidity_readings := st.humidity_readings ++ [q]}, Option.none)
    | .error e => (st, some e)
  else (st, Option.none)

/-- The `pressure:` branch of the item loop (terminated by `"]"`). -/
def pressureStep (st : SensorState) (s : String) : SensorState × Option PyErr :=
  if substrIn "pressure:" s then
    match pyFloatOfString ((pySplit ((pySplit s "pressure:").getD 1 "") "]").getD 0 "") with
    | .ok q => ({st with pressure_readings := st.pressure_readings ++ [q]}, Option.none)
    | .error e => (st, some e)
  else (st, Option.none)

/-- One iteration of `for data in data_batch` in
`SensorStream.process_batch`: the three metric branches in order; a
failing branch aborts the item, keeping the updates already made. -/
def parseItem (st : SensorState) (s : String) : SensorState × Option PyErr :=
  match tempStep st s with
  | (st1, some e) => (st1, some e)
  | (st1, Option.none) =>
    match humidityStep st1 s with
    | (st2, some e) => (st2, some e)
    | (st2, Option.none) => pressureStep st2 s

/-- The whole item loop; an exception stops the loop, keeping the state
accumulated so far. -/
def parseLoop : SensorState → List String → SensorState × Option PyErr
  | st, [] => (st, Option.none)
  | st, d :: rest =>
    match parseItem st d with
    | (st', Option.none) => parseLoop st' rest
    | (st', some e) => (st', some e)

/-- Embeds `SensorStream.process_batch`: on success increments
`total_processed` by one (per batch, not per reading), recomputes
`avg = sum(temp_readings) / total_processed`, and returns the summary
string; on any exception increments `err` and returns `None`. -/
def process_batch (st : SensorState) (batch : List String) : Option String × SensorState :=
  match parseLoop st batch with
  | (st', some _) => (Option.none, {st' with err := st'.err + 1})
  | (st', Option.none) =>
    let tp := st'.total_processed + 1
    let avg := qsum st'.temp_readings / (tp : ℚ)
    (some ("Sensor analysis: " ++ toString tp ++ " readings processed, avg temp: " ++
        ratRepr avg ++ "°C"),
      {st' with total_processed := tp, avg := avg})

/-- Repeated batch submissions (the driver calls `process_batch`
repeatedly on one object). -/
def processMany (st : SensorState) (batches : List (List String)) : SensorState :=
  batches.foldl (fun s b => (process_batch s b).2) st

/-- Whether a single batch call from `st` succeeds (returns a string). -/
def batchOk (st : SensorState) (b : List String) : Bool :=
  (process_batch st b).1.isSome

/-- Whether every batch in the run succeeds, threading the state. -/
def allOk : SensorState → List (List String) → Bool
  | _, [] => true
  | st, b :: rest => batchOk st b && allOk (process_batch st b).2 rest

end Ex01DS

namespace Ex01SP

/-!  src/ex01/stream_processor.py — Stream Processor Demo A.

Claim C3 concerns the base-class `get_stats`, which no subclass
overrides (the subclass overrides are commented out in the source). -/

/-- A statistics value: Python str, int, or float. -/
inductive SVal where
  | s (v : String)
  | i (v : Int)
  | q (v : ℚ)
deriving DecidableEq

/-- The base-class fields of `DataStream` read by `get_stats`, plus the
subclass `stream_type` tag (set in each subclass `__init__`, but not
reported by `get_stats`).  The data history and metric accumulators do
not enter `get_stats` and are omitted. -/
structure StreamState where
  stream_id : String
  stream_type : String
  total_processed : Nat
  error_count : Nat
deriving DecidableEq

/-- Embeds `DataStream.get_stats`: the returned record as an ordered key/value
list.  `success_rate = (total_processed - error_count) / max(1,
total_processed) * 100` with Python true division. -/
def get_stats (st : StreamState) : List (String × SVal) :=
  [("stream_id", .s st.stream_id),
   ("total_processed", .i st.total_processed),
   ("error_count", .i st.error_count),
   ("success_rate", .q (((st.total_processed : ℚ) - (st.error_count : ℚ)) /
      ((max 1 st.total_processed : Nat) : ℚ) * 100))]

end Ex01SP

namespace Ex1DS

/-!  src/ex1/data_stream.py — Stream Foundation Demo B.

Claim C7 concerns `TransactionStream.process_batch`, which has no
`try`/`except`: parse failures propagate to the caller (modelled with
`Except`, which also discards the partially mutated state — nothing in
the program observes the state after an uncaught exception). -/

/-- The mutable state of a `TransactionStream` object. -/
structure TransState where
  ID : String
  err : Nat
  type_data : String
  buy_readings : List Int
  sell_readings : List Int
  net_flow : Int
  total_processed : Nat
deriving DecidableEq

/-- Embeds `TransactionStream.__init__`. -/
def mkTrans (id : String) : TransState :=
  { ID := id, err := 0, type_data := "Financial Data",
    buy_readings := [], sell_readings := [], net_flow := 0, total_processed := 0 }

/-- Embeds `if "buy" in d: b = int(d.split("buy:")[1]); self.buy_readings.append(b)`.
Note the guard checks for `"buy"` while the split uses `"buy:"`: an item
containing `"buy"` but not `"buy:"` raises `IndexError`. -/
def buyStep (st : TransState) (d : String) : Except PyErr TransState :=
  if substrIn "buy" d then
    match pySplit d "buy:" with
    | _ :: p :: _ =>
      match pyIntOfString p with
      | .ok b => .ok {st with buy_readings := st.buy_readings ++ [b]}
      | .error e => .error e
    | _ => .error .indexError
  else .ok st

/-- The `"sell"` branch, symmetric to `buyStep`. -/
def sellStep (st : TransState) (d : String) : Except PyErr TransState :=
  if substrIn "sell" d then
    match pySplit d "sell:" with
    | _ :: p :: _ =>
      match pyIntOfString p with
      | .ok b => .ok {st with sell_readings := st.sell_readings ++ [b]}
      | .error e => .error e
    | _ => .error .indexError
  else .ok st

/-- The item loop of `TransactionStream.process_batch` (both branches
can fire on one item). -/
def transLoop : TransState → List String → Except PyErr TransState
  | st, [] => .ok st
  | st, d :: rest =>
    match buyStep st d with
    | .error e => .error e
    | .ok st1 =>
      match sellStep st1 d with
      | .error e => .error e
      | .ok st2 => transLoop st2 rest

/-- Embeds `TransactionStream.process_batch`: parses the batch into the
accumulators and returns
`f"Transaction analysis: {len(data_batch)} operations, net flow: +{sum(buy) - sum(sell)} units"` —
the `"+"` is a literal prefix, present whatever the sign of the flow. -/
def process_batch (st : TransState) (batch : List String) : Except PyErr (String × TransState) :=
  match transLoop st batch with
  | .error e => .error e
  | .ok st' =>
    .ok ("Transaction analysis: " ++ toString batch.length ++ " operations, net flow: +" ++
      toString (isum st'.buy_readings - isum st'.sell_readings) ++ " units", st')

end Ex1DS

namespace Ex1SP

/-!  src/ex1/stream_processor.py — Stream Processor Demo B. -/

/-- A batch item: a number (Python int/float, as an exact rational), a
key/value mapping with numeric values, or a string. -/
inductive Item where
  | num (q : ℚ)
  | dict (fields : List (String × Int))
  | str (s : String)
deriving DecidableEq

/-- The stream kinds of this demo. -/
inductive SKind where
  | sensor
  | transaction
  | event
deriving DecidableEq

/-- The state of a `DataStream` object: identifier, fixed type label,
and the single counter `total_processed`. -/
structure Stream where
  stream_id : String
  stream_type : String
  total_processed : Nat
  kind : SKind
deriving DecidableEq

/-- Embeds `SensorStream(stream_id)`. -/
def mkSensor (id : String) : Stream := ⟨id, "Environmental Data", 0, .sensor⟩

/-- Embeds `TransactionStream(stream_id)`. -/
def mkTransaction (id : String) : Stream := ⟨id, "Financial Data", 0, .transaction⟩

/-- Embeds `EventStream(stream_id)`. -/
def mkEvent (id : String) : Stream := ⟨id, "System Events", 0, .event⟩

/-- Python `isinstance(v, (int, float))`. -/
def isNum : Item → Bool
  | .num _ => true
  | _ => false

/-- Python `dict.get(k, dflt)` over an association list. -/
def dictGet (fields : List (String × Int)) (k : String) (dflt : Int) : Int :=
  ((fields.find? (fun kv => kv.1 == k)).map Prod.snd).getD dflt

/-- Python `str(item)` (the mapping rendering is only narration; no
claim inspects it). -/
def itemStr : Item → String
  | .str s => s
  | .num q => ratRepr q
  | .dict fields =>
    "\x7b" ++ String.intercalate ", " (fields.map fun kv => pyQuote ++ kv.1 ++ pyQuote ++ ": " ++ toString kv.2) ++ "\x7d"

/-- Python `s.lower()` (ASCII payloads). -/
def pyLower (s : String) : String :=
  String.mk (s.data.map Char.toLower)

/-- Two-digit zero-padded rendering. -/
def pad2 (n : Nat) : String :=
  if n < 10 then "0" ++ toString n else toString n

/-- Python `f"{q:.2f}"` on the model's exact rationals (round half up;
no claim depends on this rendering). -/
def format2f (q : ℚ) : String :=
  let scaled : Int := ⌊q * 100 + 1 / 2⌋
  let sign := if scaled < 0 then "-" else ""
  let a := scaled.natAbs
  sign ++ toString (a / 100) ++ "." ++ pad2 (a % 100)

/-- Embeds `SensorStream.process_batch`: keeps the numeric items, adds their
count (not the batch length) to `total_processed`, mean defaults to 0
for an empty reading list. -/
def sensorBatch (st : Stream) (batch : List Item) : String × Stream :=
  let readings := batch.filterMap (fun i => match i with | .num q => some q | _ => Option.none)
  let avg : ℚ := if readings.length = 0 then 0 else qsum readings / (readings.length : ℚ)
  ("Sensor analysis: " ++ toString readings.length ++ " readings processed, avg value: " ++
      format2f avg,
    {st with total_processed := st.total_processed + readings.length})

/-- Embeds `TransactionStream.process_batch`: net flow over the mapping items,
`total_processed` grows by the batch length, explicit `"+"` only for a
non-negative flow. -/
def transactionBatch (st : Stream) (batch : List Item) : String × Stream :=
  let net_flow : Int := batch.foldl
    (fun acc i => match i with
      | .dict f => acc + dictGet f "buy" 0 - dictGet f "sell" 0
      | _ => acc) 0
  let sign := if 0 ≤ net_flow then "+" else ""
  ("Transaction analysis: " ++ toString batch.length ++ " operations, net flow: " ++
      sign ++ toString net_flow ++ " units",
    {st with total_processed := st.total_processed + batch.length})

/-- Embeds `EventStream.process_batch`: counts items whose lower-cased text
contains `"error"`; `total_processed` grows by the batch length. -/
def eventBatch (st : Stream) (batch : List Item) : String × Stream :=
  let errors := batch.filter (fun e => substrIn "error" (pyLower (itemStr e)))
  ("Event analysis: " ++ toString batch.length ++ " events, " ++ toString errors.length ++
      " error detected",
    {st with total_processed := st.total_processed + batch.length})

/-- Polymorphic dispatch of `process_batch`. -/
def process_batch (st : Stream) (batch : List Item) : String × Stream :=
  match st.kind with
  | .sensor => sensorBatch st batch
  | .transaction => transactionBatch st batch
  | .event => eventBatch st batch

/-- The identifier-keyed batch mapping fed to `process_all`. -/
def Batches := List (String × List Item)

/-- Python `batches.get(stream.stream_id, [])` (first binding wins, as
in a dict with unique keys). -/
def lookupB (b : Batches) (k : String) : Option (List Item) :=
  (List.find? (fun kv => kv.1 == k) b).map Prod.snd

/-- The batch a given stream receives. -/
def batchFor (b : Batches) (st : Stream) : List Item :=
  (lookupB b st.stream_id).getD []

/-- Embeds `StreamProcessor.process_all(batches)`: each registered stream, in
registration order, is processed with the batch looked up by its own
identifier (empty batch when absent); returns the updated stream states
and the narration lines.  (The `try`/`except` of the source never fires:
every embedded `process_batch` is total.) -/
def process_all : List Stream → Batches → List Stream × List String
  | [], _ => ([], [])
  | st :: rest, batches =>
    let (res, st') := process_batch st (batchFor batches st)
    let (rest', lines) := process_all rest batches
    (st' :: rest', ("- " ++ st.stream_type ++ ": " ++ res) :: lines)

end Ex1SP

namespace Me

/-!  src/ex2/me.py — Pipeline Demo (annotated).

`time.time()` is modelled as an opaque tick `t : Nat` supplied by the
caller; console output is collected as a list of printed lines. -/

/-- The three stage classes. -/
inductive Stage where
  | input
  | transform
  | output
deriving DecidableEq

/-- Pipeline data: the raw textual payload, the envelope dict built by
`InputStage` (`raw_data`, `parsed`, `timestamp`, and after
`TransformStage` also `enriched`/`metadata`), or the final rendered
string. -/
inductive PData where
  | raw (s : String)
  | env (inner : PData) (parsed : Bool) (timestamp : Nat) (enriched : Bool)
      (metadata : Option String)
  | outp (s : String)
deriving DecidableEq

/-- Python truthiness of the pipeline data (`if not data`): empty
strings are falsy; the envelope dict is never empty. -/
def truthy : PData → Bool
  | .raw s => s ≠ ""
  | .env _ _ _ _ _ => true
  | .outp s => s ≠ ""

/-- Python `data.get("raw_data") == "TRIGGER_FAILURE"` (only a stored
string can compare equal to the sentinel). -/
def isTrigger : PData → Bool
  | .raw s => s == "TRIGGER_FAILURE"
  | .outp s => s == "TRIGGER_FAILURE"
  | _ => false

/-- Python `str(d)` of pipeline data; envelope dicts render in dict
notation (narration only — no claim inspects an envelope rendering). -/
def pdataStr : PData → String
  | .raw s => s
  | .outp s => s
  | .env inner _ t e m =>
    "\x7b" ++ pyQuote ++ "raw_data" ++ pyQuote ++ ": " ++ pyQuote ++ pdataStr inner ++ pyQuote ++
      ", " ++ pyQuote ++ "parsed" ++ pyQuote ++ ": True, " ++ pyQuote ++ "timestamp" ++ pyQuote ++ ": " ++
      toString t ++
      (if e then
        ", " ++ pyQuote ++ "enriched" ++ pyQuote ++ ": True, " ++ pyQuote ++ "metadata" ++ pyQuote ++ ": " ++
          pyQuote ++ (m.getD "") ++ pyQuote
      else "") ++ "\x7d"

/-- One stage's `process`, with the lines it prints.  `InputStage`
rejects falsy input; `TransformStage` raises on the failure sentinel,
else enriches; `OutputStage` renders the final string.  `Transform` and
`Output` call `.get` on their argument, so a bare string raises
`AttributeError`. -/
def stage_process (t : Nat) : Stage → PData → List String × Except PyErr PData
  | .input, d =>
    (["Stage 1: Input validation and parsing"],
      if truthy d = false then .error (.valueError "Invalid data format")
      else .ok (.env d true t false Option.none))
  | .transform, d =>
    (["Stage 2: Data transformation and enrichment"],
      match d with
      | .env inner p ts _ _ =>
        if isTrigger inner then .error (.runtimeError "Invalid data format")
        else .ok (.env inner p ts true (some "Nexus-v1.0"))
      | _ => .error (.attributeError "str object has no attribute get"))
  | .output, d =>
    (["Stage 3: Output formatting and delivery"],
      match d with
      | .env inner _ _ _ _ =>
        .ok (.outp ("Processed result: " ++ pdataStr inner ++ " [Verified by Nexus]"))
      | _ => .error (.attributeError "str object has no attribute get"))

/-- Embeds `for stage in self.stages: current_data = stage.process(current_data)`,
collecting printed lines; an exception stops the chain. -/
def run_stages (t : Nat) : List Stage → PData → List String × Except PyErr PData
  | [], d => ([], .ok d)
  | s :: rest, d =>
    let (tr, r) := stage_process t s d
    match r with
    | .error e => (tr, .error e)
    | .ok d' =>
      let (tr2, r2) := run_stages t rest d'
      (tr ++ tr2, r2)

/-- The adapter kinds. -/
inductive AKind where
  | json
  | csv
  | stream
deriving DecidableEq

/-- A pipeline object: adapter kind, registered stages, and the stats
record `{"processed": …, "errors": …}`. -/
structure Pipeline where
  kind : AKind
  pipeline_id : String
  stages : List Stage
  processed : Nat
  errors : Nat
deriving DecidableEq

/-- The shared adapter `process`: run every stage in order; on success
increment `processed` (CSV prefixes the result with `"CSV_EXPORT: "`);
on any stage raising, increment `errors` and re-raise the original
exception. -/
def adapter_process (t : Nat) (p : Pipeline) (d : PData) :
    List String × Except PyErr PData × Pipeline :=
  let (tr, r) := run_stages t p.stages d
  match r with
  | .error e => (tr, .error e, {p with errors := p.errors + 1})
  | .ok cd =>
    let p' := {p with processed := p.processed + 1}
    match p.kind with
    | .csv => (tr, .ok (.outp ("CSV_EXPORT: " ++ pdataStr cd)), p')
    | _ => (tr, .ok cd, p')

/-- The `NexusManager` state: the name-keyed pipeline dict. -/
structure Manager where
  pipelines : List (String × Pipeline)
deriving DecidableEq

/-- The five fixed lines printed by `NexusManager._handle_recovery`
(no retry, rollback, or alternate processing happens). -/
def recovery_lines (e : PyErr) : List String :=
  ["=== Error Recovery Test ===",
   "Simulating pipeline failure...",
   "Error detected: " ++ e.str,
   "Recovery initiated: Switching to backup processor",
   "Recovery successful: Pipeline restored, processing resumed"]

/-- Pipeline lookup by name. -/
def lookupPipe (m : Manager) (name : String) : Option Pipeline :=
  (List.find? (fun kv => kv.1 == name) m.pipelines).map Prod.snd

/-- Embeds `NexusManager.process_data(pipeline_name, data)`: narrates the
input, runs the pipeline (whose mutated stats are written back), and on
success narrates the output; on failure runs `_handle_recovery`. -/
def process_data (m : Manager) (name : String) (d : PData) (t : Nat) :
    List String × Manager :=
  match lookupPipe m name with
  | Option.none => ([], m)
  | some p =>
    let hdr := ["\nProcessing " ++ name ++ " data through pipeline...",
                "Input: " ++ pdataStr d]
    let (tr, r, p') := adapter_process t p d
    let m' : Manager :=
      ⟨m.pipelines.map (fun kv => if kv.1 == name then (kv.1, p') else kv)⟩
    match r with
    | .ok res => (hdr ++ tr ++ ["Output: " ++ pdataStr res], m')
    | .error e => (hdr ++ tr ++ recovery_lines e, m')

end Me

namespace Rev1

/-!  src/ex2/nexus_pipeline.py — Pipeline Demo Revision 1.

Same stage logic as `Me` but without prints or timestamps, with
adapter-specific result extraction, and — decisive for claim C1 — the
`StreamAdapter` except-branch `self.stats["errors"] += 1j`, which turns
the error counter into a complex number. -/

/-- A Python number as stored in the stats dict: the counters start as
ints, and adding the imaginary literal `1j` produces a complex value. -/
inductive PyNum where
  | int (n : Int)
  | complex (re im : Int)
deriving DecidableEq

/-- Python `x += 1` on a stats counter. -/
def PyNum.addOne : PyNum → PyNum
  | .int n => .int (n + 1)
  | .complex a b => .complex (a + 1) b

/-- Python `x += 1j` on a stats counter (int + complex promotes to complex). -/
def PyNum.addImagUnit : PyNum → PyNum
  | .int n => .complex n 1
  | .complex a b => .complex a (b + 1)

/-- The three stage classes. -/
inductive Stage where
  | input
  | transform
  | output
deriving DecidableEq

/-- Pipeline data (envelope has no timestamp in this revision). -/
inductive PData where
  | raw (s : String)
  | env (inner : PData) (parsed : Bool) (enriched : Bool) (metadata : Option String)
  | outp (s : String)
deriving DecidableEq

/-- Python truthiness (`if not data`). -/
def truthy : PData → Bool
  | .raw s => s ≠ ""
  | .env _ _ _ _ => true
  | .outp s => s ≠ ""

/-- Python `data.get("raw_data") == "TRIGGER_FAILURE"`. -/
def isTrigger : PData → Bool
  | .raw s => s == "TRIGGER_FAILURE"
  | .outp s => s == "TRIGGER_FAILURE"
  | _ => false

/-- Python `str(d)` (envelope rendering is narration only). -/
def pdataStr : PData → String
  | .raw s => s
  | .outp s => s
  | .env inner _ e m =>
    "\x7b" ++ pyQuote ++ "raw_data" ++ pyQuote ++ ": " ++ pyQuote ++ pdataStr inner ++ pyQuote ++
      ", " ++ pyQuote ++ "parsed" ++ pyQuote ++ ": True" ++
      (if e then
        ", " ++ pyQuote ++ "enriched" ++ pyQuote ++ ": True, " ++ pyQuote ++ "metadata" ++ pyQuote ++ ": " ++
          pyQuote ++ (m.getD "") ++ pyQuote
      else "") ++ "\x7d"

/-- One stage's `process` (no prints in this revision). -/
def stage_process : Stage → PData → Except PyErr PData
  | .input, d =>
    if truthy d = false then .error (.valueError "Invalid data format")
    else .ok (.env d true false Option.none)
  | .transform, d =>
    match d with
    | .env inner p _ _ =>
      if isTrigger inner then .error (.runtimeError "Invalid data format")
      else .ok (.env inner p true (some "Nexus-v1.0"))
    | _ => .error (.attributeError "str object has no attribute get")
  | .output, d =>
    match d with
    | .env inner _ _ _ =>
      .ok (.outp ("Processed result: " ++ pdataStr inner ++ " [Verified by Nexus]"))
    | _ => .error (.attributeError "str object has no attribute get")

/-- The stage chain. -/
def run_stages : List Stage → PData → Except PyErr PData
  | [], d => .ok d
  | s :: rest, d =>
    match stage_process s d with
    | .error e => .error e
    | .ok d' => run_stages rest d'

/-- The adapter kinds. -/
inductive AKind where
  | json
  | csv
  | stream
deriving DecidableEq

/-- A pipeline object with its stats record; the counters are `PyNum`
because the Stream adapter's except-branch makes `errors` complex. -/
structure Pipeline where
  kind : AKind
  pipeline_id : String
  stages : List Stage
  processed : PyNum
  errors : PyNum
deriving DecidableEq

/-- What each adapter's `except` branch adds to `stats["errors"]`:
`+= 1` for JSON and CSV, `+= 1j` for Stream. -/
def addErr : AKind → PyNum → PyNum
  | .stream, n => n.addImagUnit
  | _, n => n.addOne

/-- The separator `"'value': "` used by the JSON adapter's extraction. -/
def valueSep : String := pyQuote ++ "value" ++ pyQuote ++ ": "

/-- Embeds `current_data.split("'value': ")[1].split(", ")[0]`; a dict-valued
chain result has no `.split` (`AttributeError`), a missing separator
raises `IndexError`. -/
def extract_value : PData → Except PyErr String
  | .raw s | .outp s =>
    match pySplit s valueSep with
    | _ :: p :: _ => .ok ((pySplit p ", ").getD 0 "")
    | _ => .error .indexError
  | .env _ _ _ _ => .error (.attributeError "dict object has no attribute split")

/-- Embeds `current_data.count("action")` (strings only). -/
def count_action : PData → Except PyErr Nat
  | .raw s | .outp s => .ok ((pySplit s "action").length - 1)
  | .env _ _ _ _ => .error (.attributeError "dict object has no attribute count")

/-- The adapter `process`: run every stage; on a stage raising,
increment `errors` by the adapter-specific amount and re-raise.  On
chain success increment `processed`, then render the adapter-specific
result (the JSON/CSV extraction steps sit inside the same `try`, so
their failures also increment `errors` and re-raise).  The third
component lists the lines printed on the success path. -/
def process (p : Pipeline) (d : PData) :
    Except PyErr String × Pipeline × List String :=
  match run_stages p.stages d with
  | .error e => (.error e, {p with errors := addErr p.kind p.errors}, [])
  | .ok cd =>
    let p1 := {p with processed := p.processed.addOne}
    match p.kind with
    | .json =>
      match extract_value cd with
      | .error e => (.error e, {p1 with errors := p1.errors.addOne}, [])
      | .ok a =>
        (.ok ("Processed temperature reading: " ++ a ++ "°C (Normal range)"), p1,
          ["Transform: Enriched with metadata and validation"])
    | .csv =>
      match count_action cd with
      | .error e => (.error e, {p1 with errors := p1.errors.addOne}, [])
      | .ok a =>
        (.ok ("User activity logged: " ++ toString a ++ " actions processed"), p1,
          ["Transform: Parsed and structured data"])
    | .stream =>
      (.ok "Output: Stream summary: 5 readings, avg: 22.1°C", p1,
        ["Transform: Aggregated and filtered"])

end Rev1

/-! ## Claim theorems -/

/-- C9: for the payload `[1,2,3,4,5]`, `NumericProcessor.process` yields
a result whose `format_output` rendering is exactly
`"Processed 5 numeric values, sum=15, avg=3.0"`. -/
theorem c9_numeric_payload_rendering :
    Ex0.process (.list [.int 1, .int 2, .int 3, .int 4, .int 5]) = .ok " 5 15 3.0" ∧
    Ex0.format_output " 5 15 3.0" =
      .ok "Processed 5 numeric values, sum=15, avg=3.0" := by
  decide

/-- C10: for the empty-list payload, `NumericProcessor.validate` returns
`True` (the element check is vacuous) and `NumericProcessor.process`
raises `ZeroDivisionError` from the unguarded mean computation instead
of returning any string. -/
theorem c10_empty_payload_division_by_zero :
    Ex0.validate (.list []) = .ok true ∧
    Ex0.process (.list []) = .error .zeroDivisionError := by
  decide

/-- C2 counterexample: for the payload `[None]`, the element conversion
fails with `TypeError`, which `validate` does not catch (its `except`
clause names only `ValueError`), so the error surfaces to the caller
instead of a silent `False` — refuting "on any conversion failure (of
any kind) it returns false without letting any error surface". -/
theorem c2_counterexample_typeerror_surfaces :
    Ex0.validate (.list [.none]) =
      .error (.typeError "int() argument must not be NoneType") ∧
    Ex0.validate (.list [.none]) ≠ .ok false := by
  decide

/-- C3 counterexample: on a freshly initialized sensor stream of Stream
Processor Demo A (type tag `"Environmental Data"`), the record returned
by `get_stats` has exactly the four keys `stream_id`,
`total_processed`, `error_count`, `success_rate` — no type-tag field,
and no value of the record equals the stream's type tag — refuting the
claim that the record contains a type tag. -/
theorem c3_counterexample_no_type_tag :
    (Ex01SP.get_stats ⟨"SENSOR_001", "Environmental Data", 0, 0⟩).map Prod.fst =
      ["stream_id", "total_processed", "error_count", "success_rate"] ∧
    (Ex01SP.get_stats ⟨"SENSOR_001", "Environmental Data", 0, 0⟩).all
      (fun kv => !(kv.2 == Ex01SP.SVal.s "Environmental Data")) = true := by
  exact ⟨rfl, by decide⟩

/-- C3 (amended: the record carries no type tag): for every stream state
of Stream Processor Demo A, `get_stats` returns the record with the
identifier, the total processed count, the error count, and a success
rate equal to `(processed − errors) / max(1, processed) × 100`; the
divisor `max(1, processed)` is positive, so `get_stats` never divides
by zero. -/
theorem c3_get_stats_record (st : Ex01SP.StreamState) :
    Ex01SP.get_stats st =
      [("stream_id", .s st.stream_id),
       ("total_processed", .i st.total_processed),
       ("error_count", .i st.error_count),
       ("success_rate", .q (((st.total_processed : ℚ) - (st.error_count : ℚ)) /
          ((max 1 st.total_processed : Nat) : ℚ) * 100))] ∧
    (0 : ℚ) < ((max 1 st.total_processed : Nat) : ℚ) := by
  refine ⟨rfl, ?_⟩
  have h1 : (1 : Nat) ≤ max 1 st.total_processed := le_max_left _ _
  exact_mod_cast lt_of_lt_of_le Nat.zero_lt_one h1

/-- C4: processing the sentinel `"TRIGGER_FAILURE"` through the JSON
pipeline with the three stages Input, Transform, Output raises in the
Transform stage (a `RuntimeError`, after the Stage-1 and Stage-2
narration but before any Stage-3 line, so the Output stage never runs),
increments only the adapter's error counter (`processed` stays 0,
`errors` becomes 1), and the manager's recovery path prints its fixed
narration lines in that order; each stage line occurs exactly once, so
nothing is retried.  The timestamp tick `t` is arbitrary. -/
theorem c4_trigger_failure_recovery (t : Nat) :
    Me.process_data ⟨[("JSON", ⟨.json, "JSON_CORE_01", [.input, .transform, .output], 0, 0⟩)]⟩
        "JSON" (.raw "TRIGGER_FAILURE") t =
      (["\nProcessing JSON data through pipeline...",
        "Input: TRIGGER_FAILURE",
        "Stage 1: Input validation and parsing",
        "Stage 2: Data transformation and enrichment",
        "=== Error Recovery Test ===",
        "Simulating pipeline failure...",
        "Error detected: Invalid data format",
        "Recovery initiated: Switching to backup processor",
        "Recovery successful: Pipeline restored, processing resumed"],
       ⟨[("JSON", ⟨.json, "JSON_CORE_01", [.input, .transform, .output], 0, 1⟩)]⟩) ∧
    "Stage 3: Output formatting and delivery" ∉
      (["\nProcessing JSON data through pipeline...",
        "Input: TRIGGER_FAILURE",
        "Stage 1: Input validation and parsing",
        "Stage 2: Data transformation and enrichment",
        "=== Error Recovery Test ===",
        "Simulating pipeline failure...",
        "Error detected: Invalid data format",
        "Recovery initiated: Switching to backup processor",
        "Recovery successful: Pipeline restored, processing resumed"] : List String) ∧
    (["\nProcessing JSON data through pipeline...",
        "Input: TRIGGER_FAILURE",
        "Stage 1: Input validation and parsing",
        "Stage 2: Data transformation and enrichment",
        "=== Error Recovery Test ===",
        "Simulating pipeline failure...",
        "Error detected: Invalid data format",
        "Recovery initiated: Switching to backup processor",
        "Recovery successful: Pipeline restored, processing resumed"] : List String).count
      "Stage 2: Data transformation and enrichment" = 1 := by
  exact ⟨rfl, by decide, by decide⟩

/-- C1 at its failing input (the `1j` slip): running the sentinel
through a Stream adapter of Pipeline Demo Revision 1 whose three stages
are registered re-raises the Transform stage's `RuntimeError` and
leaves `processed` untouched, but the except-branch `+= 1j` turns the
error counter into the complex number `1j` — not the integer 1 that the
claim requires.  A JSON adapter on the same input increments its error
counter by the integer one, showing the intended behaviour of the
sibling adapters. -/
theorem c1_stream_adapter_error_counter_complex :
    Rev1.process ⟨.stream, "stream_01", [.input, .transform, .output], .int 0, .int 0⟩
        (.raw "TRIGGER_FAILURE") =
      (.error (.runtimeError "Invalid data format"),
       ⟨.stream, "stream_01", [.input, .transform, .output], .int 0, .complex 0 1⟩, []) ∧
    Rev1.PyNum.complex 0 1 ≠ .int 1 ∧
    Rev1.process ⟨.json, "JSON_CORE_01", [.input, .transform, .output], .int 0, .int 0⟩
        (.raw "TRIGGER_FAILURE") =
      (.error (.runtimeError "Invalid data format"),
       ⟨.json, "JSON_CORE_01", [.input, .transform, .output], .int 0, .int 1⟩, []) := by
  decide

/-- Parsing via `int(s)` on a string fails only with `ValueError`. -/
lemma pyIntOfString_error_shape (s : String) (e : PyErr)
    (h : pyIntOfString s = .error e) : e.isVE = true := by
  unfold pyIntOfString at h
  split at h
  · cases h
    rfl
  · split at h
    · cases h
    · cases h
      rfl

/-- Conversion `int(x)` fails only with `ValueError` or `TypeError`. -/
lemma pyIntConv_error_shape (x : Ex0.PyVal) (e : PyErr)
    (h : Ex0.pyIntConv x = .error e) : (e.isVE || e.isTE) = true := by
  cases x with
  | int n => cases h
  | str s =>
    have := pyIntOfString_error_shape s e h
    simp [this]
  | none => cases h; rfl
  | list xs => cases h; rfl

/-- The element loop of `NumericProcessor.validate` returns `True`
exactly when every element converts. -/
lemma validateGo_ok_true_iff (xs : List Ex0.PyVal) :
    Ex0.validateGo xs = .ok true ↔ ∀ x ∈ xs, Ex0.isOkInt (Ex0.pyIntConv x) = true := by
  induction xs with
  | nil => simp [Ex0.validateGo]
  | cons x rest ih =>
    constructor
    · intro h y hy
      cases hx : Ex0.pyIntConv x with
      | ok n =>
        rcases List.mem_cons.mp hy with rfl | hy2
        · simp [Ex0.isOkInt, hx]
        · have h2 : Ex0.validateGo rest = .ok true := by
            unfold Ex0.validateGo at h
            rwa [hx] at h
          exact ih.mp h2 y hy2
      | error e =>
        exfalso
        unfold Ex0.validateGo at h
        rw [hx] at h
        have hsh := pyIntConv_error_shape x e hx
        cases e <;> simp_all [PyErr.isVE, PyErr.isTE]
    · intro h
      have hx : Ex0.isOkInt (Ex0.pyIntConv x) = true := h x (List.mem_cons_self x rest)
      cases hc : Ex0.pyIntConv x with
      | ok n =>
        unfold Ex0.validateGo
        rw [hc]
        exact ih.mpr (fun y hy => h y (List.mem_cons_of_mem x hy))
      | error e => rw [hc] at hx; cases hx

/-- The element loop returns `False` only because some element failed
with `ValueError`. -/
lemma validateGo_ok_false (xs : List Ex0.PyVal)
    (h : Ex0.validateGo xs = .ok false) :
    ∃ x ∈ xs, Ex0.isVEresult (Ex0.pyIntConv x) = true := by
  induction xs with
  | nil => cases h
  | cons x rest ih =>
    cases hx : Ex0.pyIntConv x with
    | ok n =>
      have h2 : Ex0.validateGo rest = .ok false := by
        unfold Ex0.validateGo at h
        rwa [hx] at h
      obtain ⟨y, hy, hv⟩ := ih h2
      exact ⟨y, List.mem_cons_of_mem x hy, hv⟩
    | error e =>
      cases e with
      | valueError m => exact ⟨x, List.mem_cons_self x rest, by simp [Ex0.isVEresult, hx, PyErr.isVE]⟩
      | typeError m =>
        unfold Ex0.validateGo at h
        rw [hx] at h
        cases h
      | runtimeError m =>
        unfold Ex0.validateGo at h
        rw [hx] at h
        cases h
      | zeroDivisionError =>
        unfold Ex0.validateGo at h
        rw [hx] at h
        cases h
      | indexError =>
        unfold Ex0.validateGo at h
        rw [hx] at h
        cases h
      | attributeError m =>
        unfold Ex0.validateGo at h
        rw [hx] at h
        cases h

/-- An exception escaping the element loop is a `TypeError`. -/
lemma validateGo_error (xs : List Ex0.PyVal) (e : PyErr)
    (h : Ex0.validateGo xs = .error e) : e.isTE = true := by
  induction xs with
  | nil => cases h
  | cons x rest ih =>
    cases hx : Ex0.pyIntConv x with
    | ok n =>
      apply ih
      unfold Ex0.validateGo at h
      rwa [hx] at h
    | error e1 =>
      have hsh := pyIntConv_error_shape x e1 hx
      cases e1 with
      | valueError m =>
        unfold Ex0.validateGo at h
        rw [hx] at h
        cases h
      | typeError m =>
        unfold Ex0.validateGo at h
        rw [hx] at h
        cases h
        rfl
      | runtimeError m => simp [PyErr.isVE, PyErr.isTE] at hsh
      | zeroDivisionError => simp [PyErr.isVE, PyErr.isTE] at hsh
      | indexError => simp [PyErr.isVE, PyErr.isTE] at hsh
      | attributeError m => simp [PyErr.isVE, PyErr.isTE] at hsh

/-- C2 (amended): for every list payload, `validate` returns `True` iff
every element converts to an integer; it returns `False` (silently)
only when some element's conversion fails with `ValueError`; a
conversion failure of any other kind is a `TypeError` that is not
caught and surfaces to the caller. -/
theorem c2_validate_catches_only_valueerror (xs : List Ex0.PyVal) :
    (Ex0.validate (.list xs) = .ok true ↔
        ∀ x ∈ xs, Ex0.isOkInt (Ex0.pyIntConv x) = true) ∧
    (Ex0.validate (.list xs) = .ok false →
        ∃ x ∈ xs, Ex0.isVEresult (Ex0.pyIntConv x) = true) ∧
    (∀ e, Ex0.validate (.list xs) = .error e → e.isTE = true) := by
  have hv : Ex0.validate (.list xs) = Ex0.validateGo xs := rfl
  rw [hv]
  exact ⟨validateGo_ok_true_iff xs,
    validateGo_ok_false xs,
    fun e => validateGo_error xs e⟩

/-- C2 witness: the amended theorem applied to the payload `[None]`,
whose surfacing failure is indeed a `TypeError`. -/
theorem c2_amended_witness :
    PyErr.isTE (.typeError "int() argument must not be NoneType") = true :=
  (c2_validate_catches_only_valueerror [.none]).2.2 _ (by decide)

/-- C7: whenever `TransactionStream.process_batch` of Stream Foundation
Demo B returns, the result is
`"Transaction analysis: N operations, net flow: +F units"` with `N` the
batch length and `F` the sum of all accumulated buy amounts minus the
sum of all accumulated sell amounts; the `"+"` is a literal prefix,
present even when `F` is negative (Python then renders `+-F`). -/
theorem c7_transaction_plus_prefixed_net_flow
    (st : Ex1DS.TransState) (batch : List String) (out : String)
    (st' : Ex1DS.TransState)
    (h : Ex1DS.process_batch st batch = .ok (out, st')) :
    out = "Transaction analysis: " ++ toString batch.length ++
      " operations, net flow: +" ++
      toString (isum st'.buy_readings - isum st'.sell_readings) ++ " units" := by
  unfold Ex1DS.process_batch at h
  cases hl : Ex1DS.transLoop st batch with
  | error e => rw [hl] at h; cases h
  | ok s2 =>
    rw [hl] at h
    simp only [Except.ok.injEq, Prod.mk.injEq] at h
    rcases h with ⟨h1, h2⟩
    rw [← h1, h2]

/-- C7 witness: a batch with one buy of 50 and one sell of 200 yields a
negative flow rendered with the literal `"+"` prefix (`"+-150"`). -/
theorem c7_witness :
    Ex1DS.process_batch (Ex1DS.mkTrans "TRANS_001") ["buy:50", "sell:200"] =
      .ok ("Transaction analysis: 2 operations, net flow: +-150 units",
        ⟨"TRANS_001", 0, "Financial Data", [50], [200], 0, 0⟩) ∧
    "Transaction analysis: 2 operations, net flow: +-150 units" =
      "Transaction analysis: " ++ toString (["buy:50", "sell:200"] : List String).length ++
        " operations, net flow: +" ++
        toString (isum [(50 : Int)] - isum [(200 : Int)]) ++ " units" :=
  ⟨by decide,
   c7_transaction_plus_prefixed_net_flow (Ex1DS.mkTrans "TRANS_001")
     ["buy:50", "sell:200"] _ ⟨"TRANS_001", 0, "Financial Data", [50], [200], 0, 0⟩
     (by decide)⟩

/-- The `temp:` branch never touches the batch counter. -/
lemma tempStep_tp (st : Ex01DS.SensorState) (s : String) :
    (Ex01DS.tempStep st s).1.total_processed = st.total_processed := by
  unfold Ex01DS.tempStep
  split
  · split <;> rfl
  · rfl

/-- The `humidity:` branch never touches the batch counter. -/
lemma humidityStep_tp (st : Ex01DS.SensorState) (s : String) :
    (Ex01DS.humidityStep st s).1.total_processed = st.total_processed := by
  unfold Ex01DS.humidityStep
  split
  · split <;> rfl
  · rfl

/-- The `pressure:` branch never touches the batch counter. -/
lemma pressureStep_tp (st : Ex01DS.SensorState) (s : String) :
    (Ex01DS.pressureStep st s).1.total_processed = st.total_processed := by
  unfold Ex01DS.pressureStep
  split
  · split <;> rfl
  · rfl

/-- Parsing one batch item never touches the batch counter. -/
lemma parseItem_tp (st : Ex01DS.SensorState) (s : String) :
    (Ex01DS.parseItem st s).1.total_processed = st.total_processed := by
  unfold Ex01DS.parseItem
  split
  case _ st1 e heq =>
    have h1 := tempStep_tp st s
    rw [heq] at h1
    exact h1
  case _ st1 heq =>
    have h1 := tempStep_tp st s
    rw [heq] at h1
    split
    case _ st2 e heq2 =>
      have h2 := humidityStep_tp st1 s
      rw [heq2] at h2
      exact h2.trans h1
    case _ st2 heq2 =>
      have h2 := humidityStep_tp st1 s
      rw [heq2] at h2
      exact (pressureStep_tp st2 s).trans (h2.trans h1)

/-- The item loop never touches the batch counter. -/
lemma parseLoop_tp (batch : List String) :
    ∀ st : Ex01DS.SensorState,
      (Ex01DS.parseLoop st batch).1.total_processed = st.total_processed := by
  induction batch with
  | nil => intro st; rfl
  | cons d rest ih =>
    intro st
    have h1 := parseItem_tp st d
    unfold Ex01DS.parseLoop
    rcases hp : Ex01DS.parseItem st d with ⟨st1, e1⟩
    rw [hp] at h1
    cases e1 with
    | some e => exact h1
    | none => exact (ih st1).trans h1

/-- A successful batch bumps the batch counter by one and leaves the
reported average equal to the reading sum over the batch count. -/
lemma process_batch_success_avg (st : Ex01DS.SensorState) (b : List String)
    (out : String) (st' : Ex01DS.SensorState)
    (h : Ex01DS.process_batch st b = (some out, st')) :
    st'.avg = qsum st'.temp_readings / (st'.total_processed : ℚ) ∧
    st'.total_processed = st.total_processed + 1 := by
  unfold Ex01DS.process_batch at h
  have htp := parseLoop_tp b st
  rcases hl : Ex01DS.parseLoop st b with ⟨st1, e1⟩
  rw [hl] at h htp
  cases e1 with
  | some e => simp at h
  | none =>
    simp only [Prod.mk.injEq, Option.some.injEq] at h
    rcases h with ⟨h1, h2⟩
    rw [← h2]
    exact ⟨rfl, by rw [← htp]⟩

/-- Runs in which every batch succeeds advance the batch counter by the
number of batches. -/
lemma processMany_tp (batches : List (List String)) :
    ∀ st : Ex01DS.SensorState, Ex01DS.allOk st batches = true →
      (Ex01DS.processMany st batches).total_processed =
        st.total_processed + batches.length := by
  induction batches with
  | nil => intro st _; rfl
  | cons b rest ih =>
    intro st h
    unfold Ex01DS.allOk at h
    rcases Bool.and_eq_true_iff.mp h with ⟨hb, hrest⟩
    have hs : (Ex01DS.process_batch st b).1.isSome = true := hb
    rcases hpb : Ex01DS.process_batch st b with ⟨o, st2⟩
    rw [hpb] at hs hrest
    cases o with
    | none => cases hs
    | some out =>
      have hstep := (process_batch_success_avg st b out st2 hpb).2
      have : Ex01DS.processMany st (b :: rest) = Ex01DS.processMany st2 rest := by
        unfold Ex01DS.processMany
        simp [hpb]
      rw [this, ih st2 hrest, hstep, List.length_cons]
      omega

/-- C5: in Stream Foundation Demo A, after every successful
`process_batch` call on a sensor stream, the reported average
temperature equals the sum of all temperature readings accumulated so
far divided by `total_processed`, and `total_processed` counts the
successful batches (one per call, not one per reading): over any run of
all-successful batches it equals the number of batches. -/
theorem c5_sensor_average_divides_by_batches :
    (∀ (st : Ex01DS.SensorState) (b : List String) (out : String)
        (st' : Ex01DS.SensorState),
      Ex01DS.process_batch st b = (some out, st') →
        st'.avg = qsum st'.temp_readings / (st'.total_processed : ℚ) ∧
        st'.total_processed = st.total_processed + 1) ∧
    (∀ batches : List (List String), ∀ st : Ex01DS.SensorState,
      Ex01DS.allOk st batches = true →
        (Ex01DS.processMany st batches).total_processed =
          st.total_processed + batches.length) :=
  ⟨process_batch_success_avg, fun batches st h => processMany_tp batches st h⟩

/-- C5 witness: two successful batches carrying three readings in total
leave the batch counter at 2 (the reading count 3 never enters it). -/
theorem c5_witness :
    Ex01DS.allOk (Ex01DS.mkSensor "SENSOR_001")
      [["temp:20.0"], ["temp:30.0", "temp:40.0"]] = true ∧
    (Ex01DS.processMany (Ex01DS.mkSensor "SENSOR_001")
      [["temp:20.0"], ["temp:30.0", "temp:40.0"]]).total_processed = 0 + 2 :=
  ⟨by decide,
   c5_sensor_average_divides_by_batches.2
     [["temp:20.0"], ["temp:30.0", "temp:40.0"]]
     (Ex01DS.mkSensor "SENSOR_001") (by decide)⟩

/-- A nonempty prefix pins down the head of the list it prefixes. -/
lemma isPrefixOf_cons_head (x : Char) (ta l : List Char)
    (h : List.isPrefixOf (x :: ta) l = true) : ∃ tl, l = x :: tl := by
  cases l with
  | nil => simp [List.isPrefixOf] at h
  | cons y tl =>
    have hxy : x = y := by
      simp [List.isPrefixOf, Bool.and_eq_true] at h
      exact h.1
    exact ⟨tl, by rw [hxy]⟩

/-- Using `startswith` with a nonempty prefix pins down the first character. -/
lemma startswith_head (s p : String) (c : Char) (tp : List Char)
    (hp : p.data = c :: tp) (h : startswith s p = true) :
    ∃ t, s.data = c :: t := by
  unfold startswith at h
  rw [hp] at h
  exact isPrefixOf_cons_head c tp s.data h

/-- A payload whose first character is neither `E` nor `I` falls
through both branches of `LogProcessor.process`. -/
lemma processLog_none_of_head (s : String) (c : Char) (t : List Char)
    (hs : s.data = c :: t) (hE : c ≠ Char.ofNat 69) (hI : c ≠ Char.ofNat 73) :
    Ex0.processLog s = Option.none := by
  have h1 : startswith s "ERROR" = false := by
    cases hE2 : startswith s "ERROR"
    · rfl
    · exfalso
      obtain ⟨t2, ht2⟩ := startswith_head s "ERROR" (Char.ofNat 69) "RROR".data (by decide) hE2
      rw [hs] at ht2
      injection ht2 with hc hrest
      exact hE hc
  have h2 : startswith s "INFO" = false := by
    cases hI2 : startswith s "INFO"
    · rfl
    · exfalso
      obtain ⟨t2, ht2⟩ := startswith_head s "INFO" (Char.ofNat 73) "NFO".data (by decide) hI2
      rw [hs] at ht2
      injection ht2 with hc hrest
      exact hI hc
  simp [Ex0.processLog, h1, h2]

/-- C6: `LogProcessor.validate` is true exactly for textual payloads
beginning with one of the five severity prefixes; `process` returns the
fixed alert string for every payload starting with `"ERROR"`, the fixed
info string for every payload starting with `"INFO"`, and returns no
value (`None`) for every payload starting with `"WARNING"`, `"ALERT"`,
or `"FATAL"`, and for any text matching no severity prefix. -/
theorem c6_log_processor_dispatch :
    (∀ v : Ex0.PyVal, Ex0.validateLog v = true ↔
        ∃ s, v = Ex0.PyVal.str s ∧ (Ex0.valide.any fun p => startswith s p) = true) ∧
    (∀ s, startswith s "ERROR" = true →
        Ex0.processLog s = some "[ALERT] ERROR level detected: Connection timeout") ∧
    (∀ s, startswith s "INFO" = true →
        Ex0.processLog s = some "[INFO] INFO level detected: System ready") ∧
    (∀ s, startswith s "WARNING" = true → Ex0.processLog s = Option.none) ∧
    (∀ s, startswith s "ALERT" = true → Ex0.processLog s = Option.none) ∧
    (∀ s, startswith s "FATAL" = true → Ex0.processLog s = Option.none) ∧
    (∀ s, Ex0.validateLog (.str s) = false → Ex0.processLog s = Option.none) := by
  refine ⟨?_, ?_, ?_, ?_, ?_, ?_, ?_⟩
  · intro v
    constructor
    · intro h
      cases v with
      | str s => exact ⟨s, rfl, h⟩
      | int n => simp [Ex0.validateLog] at h
      | none => simp [Ex0.validateLog] at h
      | list xs => simp [Ex0.validateLog] at h
    · rintro ⟨s2, rfl, h⟩
      exact h
  · intro s h
    simp [Ex0.processLog, h]
  · intro s h
    obtain ⟨t, ht⟩ := startswith_head s "INFO" (Char.ofNat 73) "NFO".data (by decide) h
    have hE : startswith s "ERROR" = false := by
      cases hh : startswith s "ERROR"
      · rfl
      · exfalso
        obtain ⟨t2, ht2⟩ := startswith_head s "ERROR" (Char.ofNat 69) "RROR".data (by decide) hh
        rw [ht] at ht2
        injection ht2 with hc hrest
        exact absurd hc (by decide)
    simp [Ex0.processLog, hE, h]
  · intro s h
    obtain ⟨t, ht⟩ := startswith_head s "WARNING" (Char.ofNat 87) "ARNING".data (by decide) h
    exact processLog_none_of_head s _ t ht (by decide) (by decide)
  · intro s h
    obtain ⟨t, ht⟩ := startswith_head s "ALERT" (Char.ofNat 65) "LERT".data (by decide) h
    exact processLog_none_of_head s _ t ht (by decide) (by decide)
  · intro s h
    obtain ⟨t, ht⟩ := startswith_head s "FATAL" (Char.ofNat 70) "ATAL".data (by decide) h
    exact processLog_none_of_head s _ t ht (by decide) (by decide)
  · intro s hv
    have hE : startswith s "ERROR" = false := by
      cases hh : startswith s "ERROR"
      · rfl
      · have hvt : Ex0.validateLog (.str s) = true := by
          simp [Ex0.validateLog, Ex0.valide, hh]
        rw [hvt] at hv
        cases hv
    have hI : startswith s "INFO" = false := by
      cases hh : startswith s "INFO"
      · rfl
      · have hvt : Ex0.validateLog (.str s) = true := by
          simp [Ex0.validateLog, Ex0.valide, hh]
        rw [hvt] at hv
        cases hv
    simp [Ex0.processLog, hE, hI]

/-- C6 witness: an `"ERROR"`-prefixed payload yields the alert string
and a `"WARNING"`-prefixed payload yields no value. -/
theorem c6_witness :
    Ex0.processLog "ERROR: Connection timeout" =
      some "[ALERT] ERROR level detected: Connection timeout" ∧
    Ex0.processLog "WARNING: disk low" = Option.none :=
  ⟨c6_log_processor_dispatch.2.1 _ (by decide),
   c6_log_processor_dispatch.2.2.2.1 _ (by decide)⟩

/-- Processing an empty batch leaves a stream's state (in particular its
`total_processed` counter) unchanged, whatever its kind. -/
lemma process_batch_empty_state (s : Ex1SP.Stream) :
    (Ex1SP.process_batch s []).2 = s := by
  rcases s with ⟨sid, sty, tp, k⟩
  cases k <;>
    simp [Ex1SP.process_batch, Ex1SP.sensorBatch, Ex1SP.transactionBatch,
      Ex1SP.eventBatch]

/-- The loop of `process_all` updates each registered stream with the batch looked
up by that stream's own identifier. -/
lemma process_all_states (streams : List Ex1SP.Stream) (batches : Ex1SP.Batches) :
    (Ex1SP.process_all streams batches).1 =
      streams.map (fun s => (Ex1SP.process_batch s (Ex1SP.batchFor batches s)).2) := by
  induction streams with
  | nil => rfl
  | cons s rest ih =>
    unfold Ex1SP.process_all
    simp [ih]

/-- C8: `process_all` of Stream Processor Demo B looks up each
registered stream's batch by its identifier in the supplied mapping
(not by position); a stream whose identifier is absent from the mapping
is processed with the empty batch, and processing an empty batch leaves
that stream's state — `total_processed`, its only counter — unchanged. -/
theorem c8_missing_identifier_empty_batch_frame :
    (∀ (streams : List Ex1SP.Stream) (batches : Ex1SP.Batches),
      (Ex1SP.process_all streams batches).1 =
        streams.map (fun s => (Ex1SP.process_batch s (Ex1SP.batchFor batches s)).2)) ∧
    (∀ (batches : Ex1SP.Batches) (s : Ex1SP.Stream),
      Ex1SP.lookupB batches s.stream_id = Option.none →
        Ex1SP.batchFor batches s = [] ∧ (Ex1SP.process_batch s []).2 = s) :=
  ⟨process_all_states,
   fun batches s h =>
     ⟨by unfold Ex1SP.batchFor; rw [h]; rfl, process_batch_empty_state s⟩⟩

/-- C8 witness: a sensor stream whose identifier is missing from the
mapping gets the empty batch and keeps its state. -/
theorem c8_witness :
    Ex1SP.batchFor [("TRANS_001", [Ex1SP.Item.num 5])] (Ex1SP.mkSensor "SENSOR_001") = [] ∧
    (Ex1SP.process_batch (Ex1SP.mkSensor "SENSOR_001") []).2 =
      Ex1SP.mkSensor "SENSOR_001" :=
  c8_missing_identifier_empty_batch_frame.2 [("TRANS_001", [Ex1SP.Item.num 5])]
    (Ex1SP.mkSensor "SENSOR_001") (by decide)

/-- C3 witness: the amended record theorem applied to a concrete stream
state. -/
theorem c3_witness :
    Ex01SP.get_stats ⟨"EVENT_001", "System Events", 7, 2⟩ =
      [("stream_id", .s "EVENT_001"),
       ("total_processed", .i (7 : Nat)),
       ("error_count", .i (2 : Nat)),
       ("success_rate", .q ((((7 : Nat) : ℚ) - ((2 : Nat) : ℚ)) /
          ((max 1 (7 : Nat) : Nat) : ℚ) * 100))] ∧
    (0 : ℚ) < ((max 1 (7 : Nat) : Nat) : ℚ) :=
  c3_get_stats_record ⟨"EVENT_001", "System Events", 7, 2⟩

/-- C4 witness: the recovery-trace theorem applied at tick 0. -/
theorem c4_witness :
    Me.process_data ⟨[("JSON", ⟨.json, "JSON_CORE_01", [.input, .transform, .output], 0, 0⟩)]⟩
        "JSON" (.raw "TRIGGER_FAILURE") 0 =
      (["\nProcessing JSON data through pipeline...",
        "Input: TRIGGER_FAILURE",
        "Stage 1: Input validation and parsing",
        "Stage 2: Data transformation and enrichment",
        "=== Error Recovery Test ===",
        "Simulating pipeline failure...",
        "Error detected: Invalid data format",
        "Recovery initiated: Switching to backup processor",
        "Recovery successful: Pipeline restored, processing resumed"],
       ⟨[("JSON", ⟨.json, "JSON_CORE_01", [.input, .transform, .output], 0, 1⟩)]⟩) :=
  (c4_trigger_failure_recovery 0).1
